import Mathlib

/-!
# spot / spotifyrecommendation

A shallow embedding of `spot/spotifyrecommendation/spotifyrecommendation.go`.

* A `float64` value is the rational it stands for. `asAttribute` takes the sum of lines
  176/179 exactly; `asAttribute64` is the same function with the constants and the sum
  rounded to binary64, for the statements that depend on the last bit.
* The Spotify client and the helper packages of the repository that live in other
  files (`fulltrack`, `fullalbum`, `utils`, `config`) are fields of a `World σ`:
  every call takes the current state of the outside world and returns its answer
  together with the next state.
* A Go result pair `(value, err)` is kept as a pair: the functions of this file
  return their accumulator next to the error, and callers can read it.
* Logging through `logrus` has no effect on any returned value and is left out.
-/

namespace spotifyrecommendation

/-! ## Data model -/

/-- The type `spotify.ID`: a string. -/
abbrev ID := String

/-- A Go `error`, identified with its message. -/
abbrev Error := String

/-- The part `fmt.Errorf("...: %v", err)` plays here: the message of `err` after a fixed text. -/
def Errorf (text : String) (err : Error) : Error := text ++ err

/-- The type `spotify.SimpleAlbum`, reduced to the identifier. -/
structure SimpleAlbum where
  ID : ID
deriving DecidableEq, Repr

/-- The type `spotify.SimpleTrack`: an entry of a recommendations page. -/
structure SimpleTrack where
  ID : ID
deriving DecidableEq, Repr

/-- The type `spotify.FullTrack`: a resolved track with its parent album. -/
structure FullTrack where
  ID : ID
  Album : SimpleAlbum
deriving DecidableEq, Repr

/-- The type `spotify.FullAlbum`; `Year` is the value of `ReleaseDateTime().Year()`. -/
structure FullAlbum where
  ID : ID
  Year : Int
deriving DecidableEq, Repr

/-- The type `spotify.FullArtist`. -/
structure FullArtist where
  ID : ID
  Name : String
deriving DecidableEq, Repr

/-- The type `spotify.AudioFeatures`, reduced to the five features that are read. -/
structure AudioFeatures where
  Acousticness : ℚ
  Energy : ℚ
  Instrumentalness : ℚ
  Liveness : ℚ
  Valence : ℚ
deriving DecidableEq

/-- The type `spotify.Seeds`. -/
structure Seeds where
  Artists : List ID
  Tracks : List ID
  Genres : List String
deriving DecidableEq, Repr

/-- The type `spotify.Options`, reduced to the three fields that are set; `none` is a nil pointer. -/
structure Options where
  Limit : Option Int
  Offset : Option Int
  Country : Option String
deriving DecidableEq, Repr

/-- The type `spotify.TrackAttributes`, reduced to the ten bounds that are set, under the
keys the library stores them by; `none` is a bound that was never set. -/
structure TrackAttributes where
  max_acousticness : Option ℚ
  min_acousticness : Option ℚ
  max_energy : Option ℚ
  min_energy : Option ℚ
  max_instrumentalness : Option ℚ
  min_instrumentalness : Option ℚ
  max_liveness : Option ℚ
  min_liveness : Option ℚ
  max_valence : Option ℚ
  min_valence : Option ℚ
deriving DecidableEq

/-- The constructor `spotify.NewTrackAttributes()`: no bound set. -/
def NewTrackAttributes : TrackAttributes :=
  ⟨none, none, none, none, none, none, none, none, none, none⟩

/-- The builder method `MaxAcousticness`. -/
def TrackAttributes.MaxAcousticness (ta : TrackAttributes) (x : ℚ) : TrackAttributes :=
  { ta with max_acousticness := some x }

/-- The builder method `MinAcousticness`. -/
def TrackAttributes.MinAcousticness (ta : TrackAttributes) (x : ℚ) : TrackAttributes :=
  { ta with min_acousticness := some x }

/-- The builder method `MaxEnergy`. -/
def TrackAttributes.MaxEnergy (ta : TrackAttributes) (x : ℚ) : TrackAttributes :=
  { ta with max_energy := some x }

/-- The builder method `MinEnergy`. -/
def TrackAttributes.MinEnergy (ta : TrackAttributes) (x : ℚ) : TrackAttributes :=
  { ta with min_energy := some x }

/-- The builder method `MaxInstrumentalness`. -/
def TrackAttributes.MaxInstrumentalness (ta : TrackAttributes) (x : ℚ) : TrackAttributes :=
  { ta with max_instrumentalness := some x }

/-- The builder method `MinInstrumentalness`. -/
def TrackAttributes.MinInstrumentalness (ta : TrackAttributes) (x : ℚ) : TrackAttributes :=
  { ta with min_instrumentalness := some x }

/-- The builder method `MaxLiveness`. -/
def TrackAttributes.MaxLiveness (ta : TrackAttributes) (x : ℚ) : TrackAttributes :=
  { ta with max_liveness := some x }

/-- The builder method `MinLiveness`. -/
def TrackAttributes.MinLiveness (ta : TrackAttributes) (x : ℚ) : TrackAttributes :=
  { ta with min_liveness := some x }

/-- The builder method `MaxValence`. -/
def TrackAttributes.MaxValence (ta : TrackAttributes) (x : ℚ) : TrackAttributes :=
  { ta with max_valence := some x }

/-- The builder method `MinValence`. -/
def TrackAttributes.MinValence (ta : TrackAttributes) (x : ℚ) : TrackAttributes :=
  { ta with min_valence := some x }

/-- The type `spotify.FullArtistPage`, reduced to its artists. -/
structure FullArtistPage where
  Artists : List FullArtist
deriving DecidableEq, Repr

/-- The type `spotify.FullTrackPage`, reduced to its tracks. -/
structure FullTrackPage where
  Tracks : List FullTrack
deriving DecidableEq, Repr

/-- The type `spotify.Recommendations`, reduced to its tracks. -/
structure Recommendations where
  Tracks : List SimpleTrack
deriving DecidableEq, Repr

/-- The struct `RecommendationParameters`; `TrackAttributes` is a pointer, `none` when nil. -/
structure RecommendationParameters where
  Seeds : Seeds
  TrackAttributes : Option TrackAttributes
  FromYear : Int
  MinTrackCount : Int
deriving DecidableEq

/-! ## `asAttribute` -/

/-- The function `unicode.ToLower`: ASCII capitals move by 32, other ASCII characters stay,
and a character above ASCII is looked up in the Unicode case table, given as `caseTable`. -/
def unicodeToLower (caseTable : Char → Char) (r : Char) : Char :=
  if r.toNat ≤ 0x7F then
    if 'A'.toNat ≤ r.toNat ∧ r.toNat ≤ 'Z'.toNat then Char.ofNat (r.toNat + 32) else r
  else caseTable r

/-- The function `strings.ToLower`: every character mapped to its lower case. -/
def stringsToLower (caseTable : Char → Char) (s : String) : String :=
  String.mk (s.data.map (unicodeToLower caseTable))

/-- The function `asAttribute` (lines 154-180). -/
def asAttribute (caseTable : Char → Char) (attributeType : String) (value : ℚ) : ℚ :=
  let minValue : ℚ := 0.0
  let maxValue : ℚ := 1.0
  let modifier : ℚ := 0.3
  let lowered := stringsToLower caseTable attributeType
  let bounds : ℚ × ℚ × ℚ :=
    if lowered = "max" then (0.3, maxValue, modifier)
    else if lowered = "min" then (minValue, 0.8, -modifier)
    else (minValue, maxValue, modifier)
  if value < 0.5 then max (value + bounds.2.2) bounds.1
  else min (value + bounds.2.2) bounds.2.1

/-- The piecewise definition of section 4.2 of the specification, written from its words:
a floor, a ceiling and a modifier per bound kind, then `max (average + modifier) floor`
below one half and `min (average + modifier) ceiling` from one half on. -/
def biasSpec (floor ceiling modifier average : ℚ) : ℚ :=
  if average < 0.5 then max (average + modifier) floor else min (average + modifier) ceiling


/-! ## `asAttribute` in binary64 -/

/-- The number of binary digits of `n` after the first, that is `⌊log₂ n⌋` for `n ≥ 1`; the
first argument bounds the number of halvings. -/
def log2Floor : Nat → Nat → Nat
  | 0, _ => 0
  | fuel + 1, n => if n < 2 then 0 else log2Floor fuel (n / 2) + 1

/-- The integer `⌊log₂ (n / d)⌋` for positive `n` and `d`. -/
def floorLog2 (n d : Nat) : Int :=
  let l : Int := (log2Floor n n : Int) - (log2Floor d d : Int)
  if d * 2 ^ l.toNat ≤ n * 2 ^ (-l).toNat then l else l - 1

/-- The integer nearest to `n / d`, a tie going to the even one. -/
def roundEven (n d : Nat) : Nat :=
  let m := n / d
  let r := n % d
  if 2 * r > d ∨ (2 * r = d ∧ m % 2 = 1) then m + 1 else m

/-- The binary64 number nearest to `n / d`, as a significand `m` and an exponent `e` with value
`m * 2 ^ e`: 53 significant bits, so `e = ⌊log₂ (n / d)⌋ - 52`, and never below `-1074`, the
exponent of the subnormal numbers. -/
def nearest (n d : Nat) : Nat × Int :=
  let e : Int := if floorLog2 n d - 52 < -1074 then -1074 else floorLog2 n d - 52
  (roundEven (n * 2 ^ (-e).toNat) (d * 2 ^ e.toNat), e)

/-- The value of type `float64` nearest to a rational (IEEE 754 binary64, round to nearest,
ties to even). Overflow to an infinity, and NaN, are outside the model. -/
def float64 (x : ℚ) : ℚ :=
  if x = 0 then 0 else
    (if x < 0 then -1 else 1) * ((nearest x.num.natAbs x.den).1 : ℚ)
      * 2 ^ (nearest x.num.natAbs x.den).2

/-- The function `asAttribute` (lines 154-180) in binary64: the constants `0.3` and `.8` are
the `float64` values nearest to them (`0.0`, `1.0` and `.5` are `float64` values as they
stand), negation, comparison, `math.Max` and `math.Min` are exact, and the sum
`value+modifier` is rounded. -/
def asAttribute64 (caseTable : Char → Char) (attributeType : String) (value : ℚ) : ℚ :=
  let minValue : ℚ := 0.0
  let maxValue : ℚ := 1.0
  let modifier : ℚ := float64 0.3
  let lowered := stringsToLower caseTable attributeType
  let bounds : ℚ × ℚ × ℚ :=
    if lowered = "max" then (float64 0.3, maxValue, modifier)
    else if lowered = "min" then (minValue, float64 0.8, -modifier)
    else (minValue, maxValue, modifier)
  if value < 0.5 then max (float64 (value + bounds.2.2)) bounds.1
  else min (float64 (value + bounds.2.2)) bounds.2.1

/-- The piecewise definition of section 4.2 of the specification, written from its words, with
the sum `average + modifier` a `float64` value. -/
def biasSpec64 (floor ceiling modifier average : ℚ) : ℚ :=
  if average < 0.5 then max (float64 (average + modifier)) floor
  else min (float64 (average + modifier)) ceiling


/-! ## The outside world -/

/-- Everything the file calls and does not define. The four methods of `spotify.Client` and the
two repository helpers that reach the client (`fulltrack.GetMany`, `fullalbum.Get`) take the
state of the outside world and return their answer with the next state. `utils.GetSpotifyIDs`
(used on both kinds of track), `utils.AverageFloat`, the variable `config.Country` and the
Unicode case table are arbitrary. -/
structure World (σ : Type) where
  CurrentUsersTopArtistsOpt : Options → σ → Except Error FullArtistPage × σ
  CurrentUsersTopTracks : σ → Except Error FullTrackPage × σ
  GetAudioFeatures : List ID → σ → Except Error (List AudioFeatures) × σ
  GetRecommendations : Seeds → Option TrackAttributes → Options → σ → Except Error Recommendations × σ
  fulltrackGetMany : List ID → σ → Except Error (List FullTrack) × σ
  fullalbumGet : ID → σ → Except Error FullAlbum × σ
  GetSpotifyIDsSimple : List SimpleTrack → List ID
  GetSpotifyIDsFull : List FullTrack → List ID
  AverageFloat : List ℚ → ℚ
  Country : String
  caseTable : Char → Char

/-- Modelled from the spec: `utils.AverageFloat`, of the package `utils`, whose source is
missing. Section 4.1: the arithmetic mean of the sequence, and `0.0` for the empty sequence. -/
def AverageFloat (xs : List ℚ) : ℚ :=
  if xs = [] then 0 else xs.sum / xs.length

/-! ## `getTrackAttributes` -/

/-- The five slices filled by the loop of lines 119-131, in the order
acousticness, instrumentalness, liveness, energy, valence. -/
def collectFeatures (features : List AudioFeatures) :
    List ℚ × List ℚ × List ℚ × List ℚ × List ℚ :=
  features.foldl
    (fun acc feature =>
      (acc.1 ++ [feature.Acousticness],
       acc.2.1 ++ [feature.Instrumentalness],
       acc.2.2.1 ++ [feature.Liveness],
       acc.2.2.2.1 ++ [feature.Energy],
       acc.2.2.2.2 ++ [feature.Valence]))
    ([], [], [], [], [])

/-- The function `getTrackAttributes` (lines 107-152). The returned pointer is `none` when nil. -/
def getTrackAttributes {σ : Type} (w : World σ) (tracks : List FullTrack) (s : σ) :
    (Option TrackAttributes × Option Error) × σ :=
  match w.GetAudioFeatures (w.GetSpotifyIDsFull tracks) s with
  | (.error err, s1) =>
    ((none,
      some (Errorf ("Failed to get audio features of " ++ toString tracks.length ++ " track(s): ")
        err)), s1)
  | (.ok features, s1) =>
    let slices := collectFeatures features
    let averageAcousticness := w.AverageFloat slices.1
    let averageInstrumentalness := w.AverageFloat slices.2.1
    let averageLiveness := w.AverageFloat slices.2.2.1
    let averageEnergy := w.AverageFloat slices.2.2.2.1
    let averageValence := w.AverageFloat slices.2.2.2.2
    let attributes :=
      (((((((((NewTrackAttributes.MaxAcousticness
        (asAttribute w.caseTable "max" averageAcousticness)).MinAcousticness
        (asAttribute w.caseTable "min" averageAcousticness)).MaxEnergy
        (asAttribute w.caseTable "max" averageEnergy)).MinEnergy
        (asAttribute w.caseTable "min" averageEnergy)).MaxInstrumentalness
        (asAttribute w.caseTable "max" averageInstrumentalness)).MinInstrumentalness
        (asAttribute w.caseTable "min" averageInstrumentalness)).MaxLiveness
        (asAttribute w.caseTable "max" averageLiveness)).MinLiveness
        (asAttribute w.caseTable "min" averageLiveness)).MaxValence
        (asAttribute w.caseTable "max" averageValence)).MinValence
        (asAttribute w.caseTable "min" averageValence)
    ((some attributes, none), s1)

/-! ## `getRecommendedTracks` -/

/-- The loop of lines 92-102 over the resolved tracks still to visit, with the locals
`trackCount` and `tracks` and the state of the world. -/
def getRecommendedTracksLoop {σ : Type} (w : World σ) (FromYear : Int) :
    List FullTrack → Int → List FullTrack → σ → (List FullTrack × Option Error) × σ
  | [], _, tracks, s => ((tracks, none), s)
  | track :: rest, trackCount, tracks, s =>
    match w.fullalbumGet track.Album.ID s with
    | (.error err, s1) => ((tracks, some err), s1)
    | (.ok album, s1) =>
      if album.Year ≥ FromYear then
        getRecommendedTracksLoop w FromYear rest (trackCount + 1) (tracks ++ [track]) s1
      else
        getRecommendedTracksLoop w FromYear rest trackCount tracks s1

/-- The function `getRecommendedTracks` (lines 68-105). The update of `totalCount` at line 85
comes after its only read, the offset of the request, and is left out. -/
def getRecommendedTracks {σ : Type} (w : World σ) (params : RecommendationParameters) (s : σ) :
    (List FullTrack × Option Error) × σ :=
  let pageLimit : Int := 100
  let trackCount : Int := 0
  let totalCount : Int := 0
  let tracks : List FullTrack := []
  let options : Options := ⟨some pageLimit, some totalCount, some w.Country⟩
  match w.GetRecommendations params.Seeds params.TrackAttributes options s with
  | (.error err, s1) => ((tracks, some (Errorf "Failed to get recommendations: " err)), s1)
  | (.ok page, s1) =>
    match w.fulltrackGetMany (w.GetSpotifyIDsSimple page.Tracks) s1 with
    | (.error err, s2) => ((tracks, some err), s2)
    | (.ok fullTracks, s2) =>
      getRecommendedTracksLoop w params.FromYear fullTracks trackCount tracks s2

/-! ## `Recommend` -/

/-- The parameters built at lines 46-53 for one artist. -/
def artistParams (trackAttributes : Option TrackAttributes) (artist : FullArtist) :
    RecommendationParameters :=
  { FromYear := 2016
    MinTrackCount := 100
    Seeds := ⟨[artist.ID], [], []⟩
    TrackAttributes := trackAttributes }

/-- The loop of lines 43-63 over the artists still to visit, with the local `tracks` and the
state of the world. -/
def RecommendLoop {σ : Type} (w : World σ) (trackAttributes : Option TrackAttributes) :
    List FullArtist → List FullTrack → σ → (List FullTrack × Option Error) × σ
  | [], tracks, s => ((tracks, none), s)
  | artist :: rest, tracks, s =>
    match getRecommendedTracks w (artistParams trackAttributes artist) s with
    | ((_, some err), s1) => ((tracks, some err), s1)
    | ((pageTracks, none), s1) => RecommendLoop w trackAttributes rest (tracks ++ pageTracks) s1

/-- The function `Recommend` (lines 24-66). -/
def Recommend {σ : Type} (w : World σ) (s : σ) : (List FullTrack × Option Error) × σ :=
  let tracks : List FullTrack := []
  let pageLimit : Int := 5
  match w.CurrentUsersTopArtistsOpt ⟨some pageLimit, none, none⟩ s with
  | (.error err, s1) => ((tracks, some (Errorf "Failed to get user's top artists: " err)), s1)
  | (.ok userTopArtists, s1) =>
    match w.CurrentUsersTopTracks s1 with
    | (.error err, s2) => ((tracks, some (Errorf "Failed to get user's top tracks: " err)), s2)
    | (.ok userTopTracks, s2) =>
      match getTrackAttributes w userTopTracks.Tracks s2 with
      | ((_, some err), s3) => ((tracks, some err), s3)
      | ((trackAttributes, none), s3) =>
        RecommendLoop w trackAttributes userTopArtists.Artists tracks s3

/-! ## Vocabulary of the statements -/

/-- The calls of a list made one after the other, each from the state the one before left:
the answers in order, and the last state. No call is skipped, whatever the answers. -/
def runEach {σ α β : Type} (f : α → σ → β × σ) : List α → σ → List β × σ
  | [], s => ([], s)
  | a :: rest, s => ((f a s).1 :: (runEach f rest (f a s).2).1, (runEach f rest (f a s).2).2)

/-- The album lookup made for one resolved track. -/
def albumLookup {σ : Type} (w : World σ) (track : FullTrack) (s : σ) : Except Error FullAlbum × σ :=
  w.fullalbumGet track.Album.ID s

/-- The fetch made for one artist of `Recommend`. -/
def artistFetch {σ : Type} (w : World σ) (trackAttributes : Option TrackAttributes)
    (artist : FullArtist) (s : σ) : (List FullTrack × Option Error) × σ :=
  getRecommendedTracks w (artistParams trackAttributes artist) s

/-- The first error of a list of answers, if any. -/
def firstError {α : Type} : List (Except Error α) → Option Error
  | [] => none
  | .error e :: _ => some e
  | .ok _ :: rest => firstError rest

/-- The tracks of a list whose album, at the same position of a second list, was released in
`FromYear` or later; the order of the tracks is kept. -/
def retained (FromYear : Int) (tracks : List FullTrack) (albums : List FullAlbum) :
    List FullTrack :=
  ((tracks.zip albums).filter (fun p => decide (p.2.Year ≥ FromYear))).map Prod.fst

/-- The options of the one recommendations request: limit 100, offset 0, the configured market. -/
def pageOptions {σ : Type} (w : World σ) : Options := ⟨some 100, some 0, some w.Country⟩

/-- The recommendations request of `getRecommendedTracks`, made from the state `s`. -/
def request {σ : Type} (w : World σ) (params : RecommendationParameters) (s : σ) :
    Except Error Recommendations × σ :=
  w.GetRecommendations params.Seeds params.TrackAttributes (pageOptions w) s

/-- The bulk track resolution of `getRecommendedTracks` for a page, made from the state `s`. -/
def resolution {σ : Type} (w : World σ) (page : Recommendations) (s : σ) :
    Except Error (List FullTrack) × σ :=
  w.fulltrackGetMany (w.GetSpotifyIDsSimple page.Tracks) s

/-- Whether every request of one fetch is answered without an error: the recommendations
request, the bulk resolution of its page, and the album lookup of every resolved track, made
in that order. -/
def fetchSucceeds {σ : Type} (w : World σ) (params : RecommendationParameters) (s : σ) : Bool :=
  match request w params s with
  | (.error _, _) => false
  | (.ok page, s1) =>
    match resolution w page s1 with
    | (.error _, _) => false
    | (.ok fullTracks, s2) => (runEach (albumLookup w) fullTracks s2).1.all Except.isOk

/-- The requests of the fetch of one artist: whether all of them succeed, and the state the
fetch leaves. -/
def artistRequests {σ : Type} (w : World σ) (trackAttributes : Option TrackAttributes)
    (artist : FullArtist) (s : σ) : Bool × σ :=
  (fetchSucceeds w (artistParams trackAttributes artist) s,
    (artistFetch w trackAttributes artist s).2)

/-- One call into the outside world, with its arguments. -/
inductive Call where
  | CurrentUsersTopArtistsOpt (options : Options)
  | CurrentUsersTopTracks
  | GetAudioFeatures (ids : List ID)
  | GetRecommendations (seeds : Seeds) (attributes : Option TrackAttributes) (options : Options)
  | fulltrackGetMany (ids : List ID)
  | fullalbumGet (id : ID)
deriving DecidableEq

/-- Whether a call is a recommendations request. -/
def Call.isGetRecommendations : Call → Bool
  | .GetRecommendations _ _ _ => true
  | _ => false

/-- The world `w` with a log: every call answers as in `w` and is appended to the log. -/
def traced {σ : Type} (w : World σ) : World (σ × List Call) :=
  { CurrentUsersTopArtistsOpt := fun o s =>
      ((w.CurrentUsersTopArtistsOpt o s.1).1,
        ((w.CurrentUsersTopArtistsOpt o s.1).2, s.2 ++ [Call.CurrentUsersTopArtistsOpt o]))
    CurrentUsersTopTracks := fun s =>
      ((w.CurrentUsersTopTracks s.1).1,
        ((w.CurrentUsersTopTracks s.1).2, s.2 ++ [Call.CurrentUsersTopTracks]))
    GetAudioFeatures := fun ids s =>
      ((w.GetAudioFeatures ids s.1).1,
        ((w.GetAudioFeatures ids s.1).2, s.2 ++ [Call.GetAudioFeatures ids]))
    GetRecommendations := fun seeds ta o s =>
      ((w.GetRecommendations seeds ta o s.1).1,
        ((w.GetRecommendations seeds ta o s.1).2, s.2 ++ [Call.GetRecommendations seeds ta o]))
    fulltrackGetMany := fun ids s =>
      ((w.fulltrackGetMany ids s.1).1,
        ((w.fulltrackGetMany ids s.1).2, s.2 ++ [Call.fulltrackGetMany ids]))
    fullalbumGet := fun id s =>
      ((w.fullalbumGet id s.1).1,
        ((w.fullalbumGet id s.1).2, s.2 ++ [Call.fullalbumGet id]))
    GetSpotifyIDsSimple := w.GetSpotifyIDsSimple
    GetSpotifyIDsFull := w.GetSpotifyIDsFull
    AverageFloat := w.AverageFloat
    Country := w.Country
    caseTable := w.caseTable }

/-! ## A concrete world -/

/-- The release year the sample world gives an album: the last character of its identifier
is a digit `d`; digits `0` to `3` give the years 2016 to 2019, any other gives 2010. -/
def sampleYear (id : ID) : Int :=
  match id.data.getLast? with
  | some c => if c.toNat < 52 then 2016 + ((c.toNat : Int) - 48) else 2010
  | none => 0

/-- A world whose state counts the calls made. The user has three top artists and two top
tracks; a recommendations page seeded by an artist has ten tracks, named after the artist and
a digit; a track resolves to itself on the album named after it; an album lookup fails for
the identifiers of `failing` and otherwise gives the year `sampleYear`. -/
def sampleWorld (failing : List ID) : World Nat :=
  { CurrentUsersTopArtistsOpt := fun _ n =>
      (.ok ⟨[⟨"a1", "First"⟩, ⟨"a2", "Second"⟩, ⟨"a3", "Third"⟩]⟩, n + 1)
    CurrentUsersTopTracks := fun n => (.ok ⟨[⟨"u1", ⟨"ua1"⟩⟩, ⟨"u2", ⟨"ua2"⟩⟩]⟩, n + 1)
    GetAudioFeatures := fun ids n =>
      (.ok (ids.map (fun _ => ⟨0.2, 0.9, 0.5, 0.1, 0.7⟩)), n + 1)
    GetRecommendations := fun seeds _ _ n =>
      (.ok ⟨seeds.Artists.flatMap (fun a =>
        ["0", "1", "2", "3", "4", "5", "6", "7", "8", "9"].map (fun d => ⟨a ++ "-" ++ d⟩))⟩,
        n + 1)
    fulltrackGetMany := fun ids n => (.ok (ids.map (fun id => ⟨id, ⟨"al-" ++ id⟩⟩)), n + 1)
    fullalbumGet := fun id n =>
      (if id ∈ failing then .error "album lookup failed" else .ok ⟨id, sampleYear id⟩, n + 1)
    GetSpotifyIDsSimple := fun tracks => tracks.map (fun t => t.ID)
    GetSpotifyIDsFull := fun tracks => tracks.map (fun t => t.ID)
    AverageFloat := AverageFloat
    Country := "SE"
    caseTable := id }

/-- The resolved track of the sample world with the given identifier. -/
def sampleTrack (id : ID) : FullTrack := ⟨id, ⟨"al-" ++ id⟩⟩

/-- The four tracks the sample world retains for an artist, in page order. -/
def sampleKept (artist : ID) : List FullTrack :=
  ["0", "1", "2", "3"].map (fun d => sampleTrack (artist ++ "-" ++ d))

/-- The ten tracks the sample world resolves for an artist, in page order. -/
def sampleTracks (artist : ID) : List FullTrack :=
  ["0", "1", "2", "3", "4", "5", "6", "7", "8", "9"].map
    (fun d => sampleTrack (artist ++ "-" ++ d))

/-- The albums the sample world gives for the ten tracks of an artist, in page order. -/
def sampleAlbums (artist : ID) : List FullAlbum :=
  (sampleTracks artist).map (fun t => ⟨t.Album.ID, sampleYear t.Album.ID⟩)

/-- The parameters `Recommend` builds for the first artist of the sample world, with the
attribute target left out. -/
def sampleParams : RecommendationParameters :=
  { Seeds := ⟨["a1"], [], []⟩, TrackAttributes := none, FromYear := 2016, MinTrackCount := 100 }

/-- A pair of bounds of one feature is well formed: both are set, and
`0 ≤ min ≤ max ≤ 1`. -/
def BoundsOk (lo hi : Option ℚ) : Prop :=
  ∃ a b : ℚ, lo = some a ∧ hi = some b ∧ 0 ≤ a ∧ a ≤ b ∧ b ≤ 1

/-- The invariant of an attribute target: the five pairs of bounds are well formed. -/
def TrackAttributes.Bounded (ta : TrackAttributes) : Prop :=
  BoundsOk ta.min_acousticness ta.max_acousticness ∧
  BoundsOk ta.min_energy ta.max_energy ∧
  BoundsOk ta.min_instrumentalness ta.max_instrumentalness ∧
  BoundsOk ta.min_liveness ta.max_liveness ∧
  BoundsOk ta.min_valence ta.max_valence

end spotifyrecommendation

namespace spotifyrecommendation

/-! ## Lemmas on `asAttribute` -/

theorem stringsToLower_max (caseTable : Char → Char) : stringsToLower caseTable "max" = "max" := by
  rfl

theorem stringsToLower_min (caseTable : Char → Char) : stringsToLower caseTable "min" = "min" := by
  rfl

theorem min_ne_max : ("min" : String) ≠ "max" := by decide

theorem asAttribute_of_max (caseTable : Char → Char) (k : String) (v : ℚ)
    (hk : stringsToLower caseTable k = "max") :
    asAttribute caseTable k v
      = if v < 1 / 2 then max (v + 3 / 10) (3 / 10) else min (v + 3 / 10) 1 := by
  simp only [asAttribute, hk]
  norm_num

theorem asAttribute_of_min (caseTable : Char → Char) (k : String) (v : ℚ)
    (hk : stringsToLower caseTable k = "min") :
    asAttribute caseTable k v
      = if v < 1 / 2 then max (v - 3 / 10) 0 else min (v - 3 / 10) (4 / 5) := by
  simp only [asAttribute, hk, if_neg min_ne_max]
  norm_num [sub_eq_add_neg]

theorem asAttribute_of_other (caseTable : Char → Char) (k : String) (v : ℚ)
    (h1 : stringsToLower caseTable k ≠ "max") (h2 : stringsToLower caseTable k ≠ "min") :
    asAttribute caseTable k v
      = if v < 1 / 2 then max (v + 3 / 10) 0 else min (v + 3 / 10) 1 := by
  simp only [asAttribute, if_neg h1, if_neg h2]
  norm_num

theorem asAttribute_max (caseTable : Char → Char) (v : ℚ) :
    asAttribute caseTable "max" v
      = if v < 1 / 2 then max (v + 3 / 10) (3 / 10) else min (v + 3 / 10) 1 :=
  asAttribute_of_max caseTable "max" v (stringsToLower_max caseTable)

theorem asAttribute_min (caseTable : Char → Char) (v : ℚ) :
    asAttribute caseTable "min" v
      = if v < 1 / 2 then max (v - 3 / 10) 0 else min (v - 3 / 10) (4 / 5) :=
  asAttribute_of_min caseTable "min" v (stringsToLower_min caseTable)

theorem range_of_max (caseTable : Char → Char) (k : String) (v : ℚ)
    (hk : stringsToLower caseTable k = "max") :
    3 / 10 ≤ asAttribute caseTable k v ∧ asAttribute caseTable k v ≤ 1 := by
  rw [asAttribute_of_max caseTable k v hk]
  split_ifs with h
  · rcases max_cases (v + 3 / 10) (3 / 10) with ⟨e, _⟩ | ⟨e, _⟩ <;> rw [e] <;>
      constructor <;> linarith
  · rcases min_cases (v + 3 / 10) 1 with ⟨e, _⟩ | ⟨e, _⟩ <;> rw [e] <;>
      constructor <;> linarith

theorem range_of_min (caseTable : Char → Char) (k : String) (v : ℚ)
    (hk : stringsToLower caseTable k = "min") :
    0 ≤ asAttribute caseTable k v ∧ asAttribute caseTable k v ≤ 4 / 5 := by
  rw [asAttribute_of_min caseTable k v hk]
  split_ifs with h
  · rcases max_cases (v - 3 / 10) 0 with ⟨e, _⟩ | ⟨e, _⟩ <;> rw [e] <;>
      constructor <;> linarith
  · rcases min_cases (v - 3 / 10) (4 / 5) with ⟨e, _⟩ | ⟨e, _⟩ <;> rw [e] <;>
      constructor <;> linarith

theorem range_of_other (caseTable : Char → Char) (k : String) (v : ℚ)
    (h1 : stringsToLower caseTable k ≠ "max") (h2 : stringsToLower caseTable k ≠ "min") :
    0 ≤ asAttribute caseTable k v ∧ asAttribute caseTable k v ≤ 1 := by
  rw [asAttribute_of_other caseTable k v h1 h2]
  split_ifs with h
  · rcases max_cases (v + 3 / 10) 0 with ⟨e, _⟩ | ⟨e, _⟩ <;> rw [e] <;>
      constructor <;> linarith
  · rcases min_cases (v + 3 / 10) 1 with ⟨e, _⟩ | ⟨e, _⟩ <;> rw [e] <;>
      constructor <;> linarith

theorem range_of_any (caseTable : Char → Char) (k : String) (v : ℚ) :
    0 ≤ asAttribute caseTable k v ∧ asAttribute caseTable k v ≤ 1 := by
  by_cases h1 : stringsToLower caseTable k = "max"
  · have h := range_of_max caseTable k v h1
    constructor <;> linarith [h.1, h.2]
  · by_cases h2 : stringsToLower caseTable k = "min"
    · have h := range_of_min caseTable k v h2
      constructor <;> linarith [h.1, h.2]
    · exact range_of_other caseTable k v h1 h2

theorem min_le_max_bound (caseTable : Char → Char) (v : ℚ) :
    asAttribute caseTable "min" v ≤ asAttribute caseTable "max" v := by
  rw [asAttribute_min, asAttribute_max]
  split_ifs with h
  · exact max_le_max (by linarith) (by norm_num)
  · exact min_le_min (by linarith) (by norm_num)

theorem boundsOk_asAttribute (caseTable : Char → Char) (v : ℚ) :
    BoundsOk (some (asAttribute caseTable "min" v)) (some (asAttribute caseTable "max" v)) :=
  ⟨_, _, rfl, rfl, (range_of_any caseTable "min" v).1, min_le_max_bound caseTable v,
    (range_of_any caseTable "max" v).2⟩

/-! ## Lemmas on `getTrackAttributes` -/

theorem collectFeatures_foldl (features : List AudioFeatures) (a b c d e : List ℚ) :
    features.foldl
      (fun acc feature =>
        (acc.1 ++ [feature.Acousticness],
         acc.2.1 ++ [feature.Instrumentalness],
         acc.2.2.1 ++ [feature.Liveness],
         acc.2.2.2.1 ++ [feature.Energy],
         acc.2.2.2.2 ++ [feature.Valence]))
      (a, b, c, d, e)
    = (a ++ features.map (fun f => f.Acousticness),
       b ++ features.map (fun f => f.Instrumentalness),
       c ++ features.map (fun f => f.Liveness),
       d ++ features.map (fun f => f.Energy),
       e ++ features.map (fun f => f.Valence)) := by
  induction features generalizing a b c d e with
  | nil => simp
  | cons f rest ih => simp [List.foldl_cons, ih]

theorem collectFeatures_eq (features : List AudioFeatures) :
    collectFeatures features
    = (features.map (fun f => f.Acousticness),
       features.map (fun f => f.Instrumentalness),
       features.map (fun f => f.Liveness),
       features.map (fun f => f.Energy),
       features.map (fun f => f.Valence)) := by
  rw [collectFeatures, collectFeatures_foldl]
  simp

theorem getTrackAttributes_ok {σ : Type} (w : World σ) (tracks : List FullTrack) (s : σ)
    (features : List AudioFeatures) (s1 : σ)
    (h : w.GetAudioFeatures (w.GetSpotifyIDsFull tracks) s = (.ok features, s1)) :
    getTrackAttributes w tracks s
      = ((some
          { max_acousticness := some (asAttribute w.caseTable "max"
              (w.AverageFloat (features.map (fun f => f.Acousticness))))
            min_acousticness := some (asAttribute w.caseTable "min"
              (w.AverageFloat (features.map (fun f => f.Acousticness))))
            max_energy := some (asAttribute w.caseTable "max"
              (w.AverageFloat (features.map (fun f => f.Energy))))
            min_energy := some (asAttribute w.caseTable "min"
              (w.AverageFloat (features.map (fun f => f.Energy))))
            max_instrumentalness := some (asAttribute w.caseTable "max"
              (w.AverageFloat (features.map (fun f => f.Instrumentalness))))
            min_instrumentalness := some (asAttribute w.caseTable "min"
              (w.AverageFloat (features.map (fun f => f.Instrumentalness))))
            max_liveness := some (asAttribute w.caseTable "max"
              (w.AverageFloat (features.map (fun f => f.Liveness))))
            min_liveness := some (asAttribute w.caseTable "min"
              (w.AverageFloat (features.map (fun f => f.Liveness))))
            max_valence := some (asAttribute w.caseTable "max"
              (w.AverageFloat (features.map (fun f => f.Valence))))
            min_valence := some (asAttribute w.caseTable "min"
              (w.AverageFloat (features.map (fun f => f.Valence)))) },
          none), s1) := by
  simp only [getTrackAttributes, h, collectFeatures_eq, TrackAttributes.MaxAcousticness,
    TrackAttributes.MinAcousticness, TrackAttributes.MaxEnergy, TrackAttributes.MinEnergy,
    TrackAttributes.MaxInstrumentalness, TrackAttributes.MinInstrumentalness,
    TrackAttributes.MaxLiveness, TrackAttributes.MinLiveness, TrackAttributes.MaxValence,
    TrackAttributes.MinValence, NewTrackAttributes]

/-! ## Lemmas on sequences of calls -/

theorem runEach_length {σ α β : Type} (f : α → σ → β × σ) (l : List α) (s : σ) :
    (runEach f l s).1.length = l.length := by
  induction l generalizing s with
  | nil => rfl
  | cons a rest ih => simp [runEach, ih]

theorem runEach_append {σ α β : Type} (f : α → σ → β × σ) (l1 l2 : List α) (s : σ) :
    runEach f (l1 ++ l2) s
      = ((runEach f l1 s).1 ++ (runEach f l2 (runEach f l1 s).2).1,
         (runEach f l2 (runEach f l1 s).2).2) := by
  induction l1 generalizing s with
  | nil => simp [runEach]
  | cons a rest ih => simp [runEach, ih]

/-- Either every answer of a sequence of calls is good, or there is a first bad one. -/
theorem runEach_first_bad {σ α β : Type} (f : α → σ → β × σ) (good : β → Prop) (l : List α)
    (s : σ) :
    (∀ r ∈ (runEach f l s).1, good r) ∨
    ∃ pre a post, l = pre ++ a :: post ∧ (∀ r ∈ (runEach f pre s).1, good r) ∧
      ¬ good (f a (runEach f pre s).2).1 := by
  induction l generalizing s with
  | nil => left; simp [runEach]
  | cons a rest ih =>
    by_cases ha : good (f a s).1
    · rcases ih (f a s).2 with hall | ⟨pre, b, post, hl, hpre, hb⟩
      · left
        intro r hr
        simp only [runEach, List.mem_cons] at hr
        rcases hr with rfl | hr
        · exact ha
        · exact hall r hr
      · right
        refine ⟨a :: pre, b, post, by simp [hl], ?_, ?_⟩
        · intro r hr
          simp only [runEach, List.mem_cons] at hr
          rcases hr with rfl | hr
          · exact ha
          · exact hpre r hr
        · simpa [runEach] using hb
    · right
      exact ⟨[], a, rest, rfl, by simp [runEach], by simpa [runEach] using ha⟩

theorem firstError_ne_none {α : Type} (l : List (Except Error α)) :
    firstError l ≠ none ↔ ∃ e, Except.error e ∈ l := by
  induction l with
  | nil => simp [firstError]
  | cons r rest ih =>
    cases r with
    | error e => simp only [firstError]; constructor
                 · intro _; exact ⟨e, List.mem_cons_self _ _⟩
                 · intro _; simp
    | ok a =>
      simp only [firstError, ih, List.mem_cons]
      constructor
      · rintro ⟨e, he⟩; exact ⟨e, Or.inr he⟩
      · rintro ⟨e, he | he⟩
        · cases he
        · exact ⟨e, he⟩

/-- Answers to two sequences of calls that move the state alike: a property of every answer
of the first passes to every answer of the second when it does so call by call. -/
theorem runEach_all_of {σ α β γ : Type} (f : α → σ → β × σ) (g : α → σ → γ × σ)
    (P : β → Prop) (Q : γ → Prop) (hst : ∀ a s, (f a s).2 = (g a s).2)
    (himp : ∀ a s, P (f a s).1 → Q (g a s).1) (l : List α) (s : σ)
    (h : ∀ r ∈ (runEach f l s).1, P r) :
    (∀ r ∈ (runEach g l s).1, Q r) ∧ (runEach f l s).2 = (runEach g l s).2 := by
  induction l generalizing s with
  | nil => simp [runEach]
  | cons a rest ih =>
    have h1 : P (f a s).1 := h _ (by simp [runEach])
    have h2 : ∀ r ∈ (runEach f rest (f a s).2).1, P r := fun r hr => h r (by simp [runEach, hr])
    rw [hst a s] at h2
    obtain ⟨i1, i2⟩ := ih (g a s).2 h2
    constructor
    · intro r hr
      simp only [runEach, List.mem_cons] at hr
      rcases hr with rfl | hr
      · exact himp a s h1
      · exact i1 r hr
    · simp only [runEach, hst a s, i2]

theorem firstError_of_all_isOk {α : Type} (l : List (Except Error α))
    (h : l.all Except.isOk = true) : firstError l = none := by
  induction l with
  | nil => rfl
  | cons r rest ih =>
    cases r with
    | error e => simp [Except.isOk, Except.toBool] at h
    | ok a =>
      simp only [List.all_cons, Bool.and_eq_true] at h
      simpa [firstError] using ih h.2

/-! ## Lemmas on `getRecommendedTracks` -/

theorem getRecommendedTracksLoop_ok {σ : Type} (w : World σ) (FromYear : Int)
    (fullTracks : List FullTrack) (albums : List FullAlbum) (trackCount : Int)
    (tracks : List FullTrack) (s : σ)
    (h : (runEach (albumLookup w) fullTracks s).1 = albums.map Except.ok) :
    getRecommendedTracksLoop w FromYear fullTracks trackCount tracks s
      = ((tracks ++ retained FromYear fullTracks albums, none),
         (runEach (albumLookup w) fullTracks s).2) := by
  induction fullTracks generalizing albums trackCount tracks s with
  | nil => simp [getRecommendedTracksLoop, runEach, retained]
  | cons t rest ih =>
    cases albums with
    | nil => simp [runEach] at h
    | cons a as =>
      simp only [runEach, List.map_cons, List.cons.injEq, albumLookup] at h
      obtain ⟨h1, h2⟩ := h
      rcases hc : w.fullalbumGet t.Album.ID s with ⟨r, s1⟩
      rw [hc] at h1 h2
      simp only at h1 h2
      subst h1
      simp only [getRecommendedTracksLoop, hc, runEach, albumLookup]
      have h2' : (runEach (albumLookup w) rest s1).1 = as.map Except.ok := h2
      by_cases hy : a.Year ≥ FromYear
      · rw [if_pos hy, ih as _ _ s1 h2']
        simp [retained, List.zip_cons_cons, List.filter_cons, hy]
      · rw [if_neg hy, ih as _ _ s1 h2']
        simp [retained, List.zip_cons_cons, List.filter_cons, hy]

theorem getRecommendedTracksLoop_error {σ : Type} (w : World σ) (FromYear : Int)
    (fullTracks : List FullTrack) (trackCount : Int) (tracks : List FullTrack) (s : σ) :
    (getRecommendedTracksLoop w FromYear fullTracks trackCount tracks s).1.2
      = firstError (runEach (albumLookup w) fullTracks s).1 := by
  induction fullTracks generalizing trackCount tracks s with
  | nil => simp [getRecommendedTracksLoop, runEach, firstError]
  | cons t rest ih =>
    rcases hc : w.fullalbumGet t.Album.ID s with ⟨r, s1⟩
    cases r with
    | error e => simp [getRecommendedTracksLoop, runEach, albumLookup, hc, firstError]
    | ok a =>
      simp only [getRecommendedTracksLoop, runEach, albumLookup, hc, firstError]
      split_ifs
      · exact ih _ _ s1
      · exact ih _ _ s1

theorem getRecommendedTracks_unfold {σ : Type} (w : World σ) (params : RecommendationParameters)
    (s : σ) :
    getRecommendedTracks w params s
      = match request w params s with
        | (.error err, s1) => (([], some (Errorf "Failed to get recommendations: " err)), s1)
        | (.ok page, s1) =>
          match resolution w page s1 with
          | (.error err, s2) => (([], some err), s2)
          | (.ok fullTracks, s2) =>
            getRecommendedTracksLoop w params.FromYear fullTracks 0 [] s2 := by
  rfl

/-! ## Claims on `asAttribute` -/

/-- C5: for every average and every kind string the result of `asAttribute` lies in the range
of its kind: in `[0.3, 1.0]` for the kind `max`, in `[0.0, 0.8]` for the kind `min`, in
`[0.0, 1.0]` for any other string. The function is total, the kind is compared after
`strings.ToLower`, and a kind the switch does not recognise is computed with floor `0.0`,
ceiling `1.0` and modifier `+0.3`. -/
theorem asAttribute_range (caseTable : Char → Char) (attributeType : String) (value : ℚ) :
    (attributeType = "max" →
      0.3 ≤ asAttribute caseTable attributeType value ∧
        asAttribute caseTable attributeType value ≤ 1.0) ∧
    (attributeType = "min" →
      0.0 ≤ asAttribute caseTable attributeType value ∧
        asAttribute caseTable attributeType value ≤ 0.8) ∧
    (attributeType ≠ "max" → attributeType ≠ "min" →
      0.0 ≤ asAttribute caseTable attributeType value ∧
        asAttribute caseTable attributeType value ≤ 1.0) ∧
    (stringsToLower caseTable attributeType ≠ "max" →
      stringsToLower caseTable attributeType ≠ "min" →
      asAttribute caseTable attributeType value = biasSpec 0.0 1.0 0.3 value) := by
  refine ⟨?_, ?_, ?_, ?_⟩
  · rintro rfl
    have h := range_of_max caseTable "max" value (stringsToLower_max caseTable)
    norm_num
    exact h
  · rintro rfl
    have h := range_of_min caseTable "min" value (stringsToLower_min caseTable)
    norm_num
    exact h
  · intro _ _
    have h := range_of_any caseTable attributeType value
    norm_num
    exact h
  · intro h1 h2
    rw [asAttribute_of_other caseTable attributeType value h1 h2, biasSpec]
    norm_num

/-! ### Binary64 values -/

theorem float64_eval (x : ℚ) (n d m : ℕ) (e : ℤ) (hn : x.num.natAbs = n) (hd : x.den = d)
    (h0 : x ≠ 0) (h : nearest n d = (m, e)) :
    float64 x = (if x < 0 then -1 else 1) * (m : ℚ) * 2 ^ e := by
  simp only [float64, if_neg h0, hn, hd, h]

theorem float64_three_tenths : float64 0.3 = 5404319552844595 / 18014398509481984 := by
  have h : (0.3 : ℚ) = 3 / 10 := by norm_num
  rw [h, float64_eval (3 / 10) 3 10 5404319552844595 (-54) (by norm_num) (by norm_num)
    (by norm_num) (by decide)]
  norm_num

theorem float64_four_fifths : float64 0.8 = 3602879701896397 / 4503599627370496 := by
  have h : (0.8 : ℚ) = 4 / 5 := by norm_num
  rw [h, float64_eval (4 / 5) 4 5 7205759403792794 (-53) (by norm_num) (by norm_num)
    (by norm_num) (by decide)]
  norm_num

theorem float64_nine_tenths : float64 0.9 = 8106479329266893 / 9007199254740992 := by
  have h : (0.9 : ℚ) = 9 / 10 := by norm_num
  rw [h, float64_eval (9 / 10) 9 10 8106479329266893 (-53) (by norm_num) (by norm_num)
    (by norm_num) (by decide)]
  norm_num

theorem float64_three_fifths : float64 0.6 = 5404319552844595 / 9007199254740992 := by
  have h : (0.6 : ℚ) = 3 / 5 := by norm_num
  rw [h, float64_eval (3 / 5) 3 5 5404319552844595 (-53) (by norm_num) (by norm_num)
    (by norm_num) (by decide)]
  norm_num

theorem float64_one_fifth : float64 0.2 = 3602879701896397 / 18014398509481984 := by
  have h : (0.2 : ℚ) = 1 / 5 := by norm_num
  rw [h, float64_eval (1 / 5) 1 5 7205759403792794 (-55) (by norm_num) (by norm_num)
    (by norm_num) (by decide)]
  norm_num

theorem float64_half : float64 (1 / 2) = 1 / 2 := by
  rw [float64_eval (1 / 2) 1 2 4503599627370496 (-53) (by norm_num) (by norm_num)
    (by norm_num) (by decide)]
  norm_num

/-- The rounded sum of line 179 at the kind `min` and the average `0.9`. -/
theorem float64_sum_min :
    float64 (float64 0.9 + -float64 0.3) = 5404319552844596 / 9007199254740992 := by
  have h : (float64 0.9 + -float64 0.3 : ℚ) = 10808639105689191 / 18014398509481984 := by
    rw [float64_nine_tenths, float64_three_tenths]; norm_num
  rw [h, float64_eval _ 10808639105689191 18014398509481984 5404319552844596 (-53)
    (by norm_num) (by norm_num) (by norm_num) (by decide)]
  norm_num

/-- The rounded sum of line 176 at the kind `max` and the average `0.2`. -/
theorem float64_sum_max : float64 (float64 0.2 + float64 0.3) = 1 / 2 := by
  have h : (float64 0.2 + float64 0.3 : ℚ) = 1 / 2 := by
    rw [float64_one_fifth, float64_three_tenths]; norm_num
  rw [h, float64_half]

theorem asAttribute64_max (caseTable : Char → Char) (v : ℚ) :
    asAttribute64 caseTable "max" v
      = if v < 0.5 then max (float64 (v + float64 0.3)) (float64 0.3)
        else min (float64 (v + float64 0.3)) 1.0 := by
  simp only [asAttribute64, stringsToLower_max, if_true]

theorem asAttribute64_min (caseTable : Char → Char) (v : ℚ) :
    asAttribute64 caseTable "min" v
      = if v < 0.5 then max (float64 (v + -float64 0.3)) 0.0
        else min (float64 (v + -float64 0.3)) (float64 0.8) := by
  simp only [asAttribute64, stringsToLower_min, if_neg min_ne_max, if_true]

theorem asAttribute64_min_value (caseTable : Char → Char) :
    asAttribute64 caseTable "min" (float64 0.9) = 5404319552844596 / 9007199254740992 := by
  rw [asAttribute64_min]
  have h : ¬ (float64 0.9 < (0.5 : ℚ)) := by rw [float64_nine_tenths]; norm_num
  rw [if_neg h, float64_sum_min, float64_four_fifths]
  norm_num

/-- C6, as stated, fails on the `float64` arithmetic of the code: at the kind `min` and the
average `0.9` the sum of line 179 rounds to `5404319552844596 / 2 ^ 53`, printed
`0.6000000000000001`, which is neither the `float64` value `0.6` nor the rational `0.6`. -/
theorem asAttribute64_min_example :
    asAttribute64 id "min" (float64 0.9) = 5404319552844596 / 2 ^ 53 ∧
    float64 0.6 = 5404319552844595 / 2 ^ 53 ∧
    asAttribute64 id "min" (float64 0.9) ≠ float64 0.6 ∧
    asAttribute64 id "min" (float64 0.9) ≠ 0.6 ∧
    (0.60000000000000005 : ℚ) < asAttribute64 id "min" (float64 0.9) ∧
    asAttribute64 id "min" (float64 0.9) < 0.60000000000000015 := by
  rw [asAttribute64_min_value, float64_three_fifths]
  norm_num

/-- C6, amended: for the kinds `max` and `min`, `asAttribute` is the piecewise definition of
the specification with (floor, ceiling, modifier) = (0.3, 1.0, +0.3) and (0.0, 0.8, -0.3),
the constants and the sum being `float64` values; the boundary `0.5` takes the ceiling
branch; `asAttribute("max", 0.2) = 0.5`, and `asAttribute("min", 0.9)` is the `float64` value
next above `0.6`, printed `0.6000000000000001`. With the sum taken exactly the same
piecewise definition holds and the second example is `0.6`. -/
theorem asAttribute64_eq_biasSpec64 (caseTable : Char → Char) (v : ℚ) :
    asAttribute64 caseTable "max" v = biasSpec64 (float64 0.3) 1.0 (float64 0.3) v ∧
    asAttribute64 caseTable "min" v = biasSpec64 0.0 (float64 0.8) (-float64 0.3) v ∧
    asAttribute64 caseTable "max" 0.5 = min (float64 (0.5 + float64 0.3)) 1.0 ∧
    asAttribute64 caseTable "min" 0.5 = min (float64 (0.5 + -float64 0.3)) (float64 0.8) ∧
    asAttribute64 caseTable "max" (float64 0.2) = 0.5 ∧
    asAttribute64 caseTable "min" (float64 0.9) = float64 0.6 + 2 ^ (-53 : ℤ) ∧
    asAttribute caseTable "max" v = biasSpec 0.3 1.0 0.3 v ∧
    asAttribute caseTable "min" v = biasSpec 0.0 0.8 (-0.3) v ∧
    asAttribute caseTable "max" 0.5 = min (0.5 + 0.3) 1.0 ∧
    asAttribute caseTable "min" 0.5 = min (0.5 + -0.3) 0.8 ∧
    asAttribute caseTable "max" 0.2 = 0.5 ∧
    asAttribute caseTable "min" 0.9 = 0.6 := by
  refine ⟨?_, ?_, ?_, ?_, ?_, ?_, ?_, ?_, ?_, ?_, ?_, ?_⟩
  · rw [asAttribute64_max, biasSpec64]
  · rw [asAttribute64_min, biasSpec64]
  · rw [asAttribute64_max, if_neg (lt_irrefl _)]
  · rw [asAttribute64_min, if_neg (lt_irrefl _)]
  · rw [asAttribute64_max]
    have h : float64 0.2 < (0.5 : ℚ) := by rw [float64_one_fifth]; norm_num
    rw [if_pos h, float64_sum_max, float64_three_tenths]
    norm_num
  · rw [asAttribute64_min_value, float64_three_fifths]
    norm_num
  · rw [asAttribute_max, biasSpec]; norm_num
  · rw [asAttribute_min, biasSpec]; norm_num [sub_eq_add_neg]
  · rw [asAttribute_max]; norm_num
  · rw [asAttribute_min]; norm_num
  · rw [asAttribute_max]; norm_num
  · rw [asAttribute_min]; norm_num

/-- C10: for an average in `[0, 1]` the biased window brackets the average: the `max` bound is
at least the average and the `min` bound is at most the average. -/
theorem asAttribute_brackets (caseTable : Char → Char) (v : ℚ) (h0 : 0 ≤ v) (h1 : v ≤ 1) :
    v ≤ asAttribute caseTable "max" v ∧ asAttribute caseTable "min" v ≤ v := by
  rw [asAttribute_max, asAttribute_min]
  split_ifs with h
  · exact ⟨le_max_of_le_left (by linarith), max_le (by linarith) h0⟩
  · exact ⟨le_min (by linarith) h1, min_le_of_left_le (by linarith)⟩

/-- An instance of C10 at the average `0.5`. -/
theorem asAttribute_brackets_witness :
    (0.5 : ℚ) ≤ asAttribute id "max" 0.5 ∧ asAttribute id "min" 0.5 ≤ 0.5 :=
  asAttribute_brackets id 0.5 (by norm_num) (by norm_num)

/-! ## Claims on `getTrackAttributes` -/

/-- C7: for every list of samples the client returns, the attribute target built by
`getTrackAttributes` has, for each of the five features, both bounds set with
`0 ≤ min ≤ max ≤ 1`; and for every average the `min` bound is at most the `max` bound and
both lie in `[0, 1]`. -/
theorem getTrackAttributes_bounded {σ : Type} (w : World σ) (tracks : List FullTrack) (s : σ)
    (features : List AudioFeatures) (s1 : σ)
    (h : w.GetAudioFeatures (w.GetSpotifyIDsFull tracks) s = (.ok features, s1)) :
    (∃ attributes, getTrackAttributes w tracks s = ((some attributes, none), s1) ∧
      attributes.Bounded) ∧
    (∀ v : ℚ, asAttribute w.caseTable "min" v ≤ asAttribute w.caseTable "max" v ∧
      0 ≤ asAttribute w.caseTable "min" v ∧ asAttribute w.caseTable "min" v ≤ 1 ∧
      0 ≤ asAttribute w.caseTable "max" v ∧ asAttribute w.caseTable "max" v ≤ 1) := by
  refine ⟨⟨_, getTrackAttributes_ok w tracks s features s1 h, ?_⟩, ?_⟩
  · exact ⟨boundsOk_asAttribute _ _, boundsOk_asAttribute _ _, boundsOk_asAttribute _ _,
      boundsOk_asAttribute _ _, boundsOk_asAttribute _ _⟩
  · intro v
    exact ⟨min_le_max_bound _ v, (range_of_any _ "min" v).1, (range_of_any _ "min" v).2,
      (range_of_any _ "max" v).1, (range_of_any _ "max" v).2⟩

/-- C8: with `utils.AverageFloat` the arithmetic mean (and `0.0` on the empty list), each of
the ten bounds built by `getTrackAttributes` is `asAttribute` of its kind at the mean of the
same feature over all samples; with no sample the five `max` bounds are `0.3` and the five
`min` bounds are `0.0`. -/
theorem getTrackAttributes_wiring {σ : Type} (w : World σ) (tracks : List FullTrack) (s : σ)
    (features : List AudioFeatures) (s1 : σ)
    (hAvg : w.AverageFloat = AverageFloat)
    (h : w.GetAudioFeatures (w.GetSpotifyIDsFull tracks) s = (.ok features, s1)) :
    ∃ attributes, getTrackAttributes w tracks s = ((some attributes, none), s1) ∧
      (attributes.max_acousticness
          = some (asAttribute w.caseTable "max"
              (AverageFloat (features.map (fun f => f.Acousticness)))) ∧
       attributes.min_acousticness
          = some (asAttribute w.caseTable "min"
              (AverageFloat (features.map (fun f => f.Acousticness)))) ∧
       attributes.max_energy
          = some (asAttribute w.caseTable "max"
              (AverageFloat (features.map (fun f => f.Energy)))) ∧
       attributes.min_energy
          = some (asAttribute w.caseTable "min"
              (AverageFloat (features.map (fun f => f.Energy)))) ∧
       attributes.max_instrumentalness
          = some (asAttribute w.caseTable "max"
              (AverageFloat (features.map (fun f => f.Instrumentalness)))) ∧
       attributes.min_instrumentalness
          = some (asAttribute w.caseTable "min"
              (AverageFloat (features.map (fun f => f.Instrumentalness)))) ∧
       attributes.max_liveness
          = some (asAttribute w.caseTable "max"
              (AverageFloat (features.map (fun f => f.Liveness)))) ∧
       attributes.min_liveness
          = some (asAttribute w.caseTable "min"
              (AverageFloat (features.map (fun f => f.Liveness)))) ∧
       attributes.max_valence
          = some (asAttribute w.caseTable "max"
              (AverageFloat (features.map (fun f => f.Valence)))) ∧
       attributes.min_valence
          = some (asAttribute w.caseTable "min"
              (AverageFloat (features.map (fun f => f.Valence))))) ∧
      AverageFloat [] = 0.0 ∧
      (∀ xs : List ℚ, xs ≠ [] → AverageFloat xs = xs.sum / xs.length) ∧
      (features = [] →
        attributes = ⟨some 0.3, some 0.0, some 0.3, some 0.0, some 0.3, some 0.0,
          some 0.3, some 0.0, some 0.3, some 0.0⟩) := by
  refine ⟨_, getTrackAttributes_ok w tracks s features s1 h, ?_, ?_, ?_, ?_⟩
  · simp only [hAvg, and_self]
  · norm_num [AverageFloat]
  · intro xs hxs
    simp [AverageFloat, hxs]
  · rintro rfl
    have hmax : asAttribute w.caseTable "max" 0 = 0.3 := by rw [asAttribute_max]; norm_num
    have hmin : asAttribute w.caseTable "min" 0 = 0.0 := by rw [asAttribute_min]; norm_num
    have h0 : AverageFloat [] = 0 := by simp [AverageFloat]
    simp only [hAvg, List.map_nil, h0, hmax, hmin]

/-! ## Claims on `getRecommendedTracks` -/

/-- C3: when the recommendations request, the bulk resolution and every album lookup succeed,
`getRecommendedTracks` returns no error and exactly the resolved tracks whose album was
released in `FromYear` or later, in the order of the resolution: the output is a sublist of
the resolved tracks, and an entry is in it exactly when its album meets the bound (a year
equal to `FromYear` is kept). -/
theorem getRecommendedTracks_retained {σ : Type} (w : World σ) (params : RecommendationParameters)
    (s : σ) (page : Recommendations) (s1 : σ) (fullTracks : List FullTrack) (s2 : σ)
    (albums : List FullAlbum)
    (hreq : request w params s = (.ok page, s1))
    (hres : resolution w page s1 = (.ok fullTracks, s2))
    (halb : (runEach (albumLookup w) fullTracks s2).1 = albums.map Except.ok) :
    getRecommendedTracks w params s
      = ((retained params.FromYear fullTracks albums, none),
         (runEach (albumLookup w) fullTracks s2).2) ∧
    (retained params.FromYear fullTracks albums).Sublist fullTracks ∧
    (∀ t, t ∈ retained params.FromYear fullTracks albums ↔
      ∃ a, (t, a) ∈ fullTracks.zip albums ∧ a.Year ≥ params.FromYear) ∧
    (∀ (t : FullTrack) (a : FullAlbum), (t, a) ∈ fullTracks.zip albums →
      a.Year = params.FromYear → t ∈ retained params.FromYear fullTracks albums) := by
  have hlen : albums.length = fullTracks.length := by
    have := congrArg List.length halb
    rw [runEach_length, List.length_map] at this
    exact this.symm
  have hmem : ∀ t, t ∈ retained params.FromYear fullTracks albums ↔
      ∃ a, (t, a) ∈ fullTracks.zip albums ∧ a.Year ≥ params.FromYear := by
    intro t
    simp only [retained, List.mem_map, List.mem_filter, decide_eq_true_eq, Prod.exists,
      exists_and_right, exists_eq_right]
  refine ⟨?_, ?_, hmem, ?_⟩
  · rw [getRecommendedTracks_unfold, hreq]
    simp only [hres]
    rw [getRecommendedTracksLoop_ok w params.FromYear fullTracks albums 0 [] s2 halb]
    simp
  · have h1 : ((fullTracks.zip albums).filter
        (fun p => decide (p.2.Year ≥ params.FromYear))).Sublist (fullTracks.zip albums) :=
      List.filter_sublist _
    have h2 := h1.map Prod.fst
    rw [List.map_fst_zip _ _ (le_of_eq hlen.symm)] at h2
    exact h2
  · intro t a hta hy
    exact (hmem t).2 ⟨a, hta, by rw [hy]⟩

/-- C4: `getRecommendedTracks` returns an error exactly when the recommendations request
fails, or the bulk resolution fails, or the album lookup of some resolved track fails, the
lookups taken one after the other in track order. The error is that of the first failing
call: the request (under the text of line 82), else the resolution, else the first failing
album lookup in track order. A failing lookup aborts the fetch whatever the year bound: the
returned error is the same for every `FromYear`. -/
theorem getRecommendedTracks_error {σ : Type} (w : World σ) (params : RecommendationParameters)
    (s : σ) :
    ((getRecommendedTracks w params s).1.2 ≠ none ↔
      (∃ e, (request w params s).1 = .error e) ∨
      (∃ page e, (request w params s).1 = .ok page ∧
        (resolution w page (request w params s).2).1 = .error e) ∨
      (∃ page fullTracks e, (request w params s).1 = .ok page ∧
        (resolution w page (request w params s).2).1 = .ok fullTracks ∧
        Except.error e ∈
          (runEach (albumLookup w) fullTracks (resolution w page (request w params s).2).2).1)) ∧
    (∀ e, (request w params s).1 = .error e →
      (getRecommendedTracks w params s).1.2
        = some (Errorf "Failed to get recommendations: " e)) ∧
    (∀ page e, (request w params s).1 = .ok page →
      (resolution w page (request w params s).2).1 = .error e →
      (getRecommendedTracks w params s).1.2 = some e) ∧
    (∀ page fullTracks, (request w params s).1 = .ok page →
      (resolution w page (request w params s).2).1 = .ok fullTracks →
      (getRecommendedTracks w params s).1.2
        = firstError
          (runEach (albumLookup w) fullTracks (resolution w page (request w params s).2).2).1) ∧
    (∀ y : Int, (getRecommendedTracks w { params with FromYear := y } s).1.2
        = (getRecommendedTracks w params s).1.2) := by
  have key : ∀ p : RecommendationParameters, request w p s = request w params s →
      (getRecommendedTracks w p s).1.2
        = match request w params s with
          | (.error err, _) => some (Errorf "Failed to get recommendations: " err)
          | (.ok page, s1) =>
            match resolution w page s1 with
            | (.error err, _) => some err
            | (.ok fullTracks, s2) => firstError (runEach (albumLookup w) fullTracks s2).1 := by
    intro p hp
    rw [getRecommendedTracks_unfold, hp]
    rcases request w params s with ⟨r, s1⟩
    cases r with
    | error e => rfl
    | ok page =>
      simp only
      rcases resolution w page s1 with ⟨r2, s2⟩
      cases r2 with
      | error e => rfl
      | ok fullTracks => exact getRecommendedTracksLoop_error w _ fullTracks 0 [] s2
  have key0 := key params rfl
  refine ⟨?_, ?_, ?_, ?_, ?_⟩
  · rw [key0]
    rcases request w params s with ⟨r, s1⟩
    cases r with
    | error e => simp
    | ok page =>
      simp only [Except.ok.injEq, exists_and_left, exists_eq_left', reduceCtorEq, exists_false,
        false_or]
      rcases resolution w page s1 with ⟨r2, s2⟩
      cases r2 with
      | error e => simp
      | ok fullTracks => simp [firstError_ne_none]
  · intro e he
    rw [key0]
    revert he
    rcases request w params s with ⟨r, s1⟩
    intro he
    dsimp only at he
    subst he
    rfl
  · intro page e hp he
    rw [key0]
    revert hp he
    rcases request w params s with ⟨r, s1⟩
    intro hp
    dsimp only at hp
    subst hp
    dsimp only
    rcases resolution w page s1 with ⟨r2, s2⟩
    intro he
    dsimp only at he
    subst he
    rfl
  · intro page fullTracks hp hf
    rw [key0]
    revert hp hf
    rcases request w params s with ⟨r, s1⟩
    intro hp
    dsimp only at hp
    subst hp
    dsimp only
    rcases resolution w page s1 with ⟨r2, s2⟩
    intro hf
    dsimp only at hf
    subst hf
    rfl
  · intro y
    exact (key { params with FromYear := y } rfl).trans key0.symm

theorem fetchSucceeds_no_error {σ : Type} (w : World σ) (params : RecommendationParameters)
    (s : σ) (h : fetchSucceeds w params s = true) :
    (getRecommendedTracks w params s).1.2 = none := by
  rw [getRecommendedTracks_unfold]
  rw [fetchSucceeds] at h
  revert h
  rcases request w params s with ⟨r, s1⟩
  cases r with
  | error e => intro h; simp at h
  | ok page =>
    dsimp only
    rcases resolution w page s1 with ⟨r2, s2⟩
    cases r2 with
    | error e => intro h; simp at h
    | ok fullTracks =>
      intro h
      dsimp only at h ⊢
      rw [getRecommendedTracksLoop_error]
      exact firstError_of_all_isOk _ h

/-! ## Lemmas on `Recommend` -/

theorem getTrackAttributes_error {σ : Type} (w : World σ) (tracks : List FullTrack) (s : σ)
    (e : Error) (s1 : σ)
    (h : w.GetAudioFeatures (w.GetSpotifyIDsFull tracks) s = (.error e, s1)) :
    getTrackAttributes w tracks s
      = ((none, some (Errorf
          ("Failed to get audio features of " ++ toString tracks.length ++ " track(s): ") e)),
         s1) := by
  simp only [getTrackAttributes, h]

theorem RecommendLoop_ok {σ : Type} (w : World σ) (ta : Option TrackAttributes)
    (artists : List FullArtist) (tracks : List FullTrack) (s : σ)
    (h : ∀ r ∈ (runEach (artistFetch w ta) artists s).1, r.2 = none) :
    RecommendLoop w ta artists tracks s
      = ((tracks ++ ((runEach (artistFetch w ta) artists s).1.map Prod.fst).flatten, none),
         (runEach (artistFetch w ta) artists s).2) := by
  induction artists generalizing tracks s with
  | nil => simp [RecommendLoop, runEach]
  | cons a rest ih =>
    have ha : (artistFetch w ta a s).1.2 = none := h _ (by simp [runEach])
    have hrest : ∀ r ∈ (runEach (artistFetch w ta) rest (artistFetch w ta a s).2).1, r.2 = none := by
      intro r hr
      exact h r (by simp [runEach, hr])
    rcases hc : artistFetch w ta a s with ⟨⟨pageTracks, err⟩, s1⟩
    rw [hc] at ha hrest
    dsimp only at ha hrest
    subst ha
    have hc' : getRecommendedTracks w (artistParams ta a) s = ((pageTracks, none), s1) := hc
    simp only [RecommendLoop, hc', runEach, hc, List.map_cons, List.flatten_cons]
    rw [ih _ s1 hrest, List.append_assoc]

theorem RecommendLoop_error {σ : Type} (w : World σ) (ta : Option TrackAttributes)
    (pre : List FullArtist) (artist : FullArtist) (post : List FullArtist)
    (tracks : List FullTrack) (s : σ) (e : Error)
    (h : ∀ r ∈ (runEach (artistFetch w ta) pre s).1, r.2 = none)
    (he : (artistFetch w ta artist (runEach (artistFetch w ta) pre s).2).1.2 = some e) :
    RecommendLoop w ta (pre ++ artist :: post) tracks s
      = ((tracks ++ ((runEach (artistFetch w ta) pre s).1.map Prod.fst).flatten, some e),
         (artistFetch w ta artist (runEach (artistFetch w ta) pre s).2).2) := by
  induction pre generalizing tracks s with
  | nil =>
    simp only [runEach] at he
    rcases hc : artistFetch w ta artist s with ⟨⟨pageTracks, err⟩, s1⟩
    rw [hc] at he
    dsimp only at he
    subst he
    have hc' : getRecommendedTracks w (artistParams ta artist) s = ((pageTracks, some e), s1) := hc
    simp [RecommendLoop, hc', runEach, hc]
  | cons a rest ih =>
    have ha : (artistFetch w ta a s).1.2 = none := h _ (by simp [runEach])
    have hrest : ∀ r ∈ (runEach (artistFetch w ta) rest (artistFetch w ta a s).2).1, r.2 = none := by
      intro r hr
      exact h r (by simp [runEach, hr])
    simp only [runEach] at he
    rcases hc : artistFetch w ta a s with ⟨⟨pageTracks, err⟩, s1⟩
    rw [hc] at ha hrest he
    dsimp only at ha hrest he
    subst ha
    have hc' : getRecommendedTracks w (artistParams ta a) s = ((pageTracks, none), s1) := hc
    simp only [List.cons_append, RecommendLoop, hc', runEach, hc, List.map_cons,
      List.flatten_cons, List.append_eq]
    rw [ih _ s1 hrest he, List.append_assoc]

theorem Recommend_loop {σ : Type} (w : World σ) (s0 : σ) (topArtists : FullArtistPage) (s1 : σ)
    (topTracks : FullTrackPage) (s2 : σ) (features : List AudioFeatures) (s3 : σ)
    (hA : w.CurrentUsersTopArtistsOpt ⟨some 5, none, none⟩ s0 = (.ok topArtists, s1))
    (hT : w.CurrentUsersTopTracks s1 = (.ok topTracks, s2))
    (hF : w.GetAudioFeatures (w.GetSpotifyIDsFull topTracks.Tracks) s2 = (.ok features, s3)) :
    Recommend w s0
      = RecommendLoop w (getTrackAttributes w topTracks.Tracks s2).1.1 topArtists.Artists [] s3 := by
  have hG := getTrackAttributes_ok w topTracks.Tracks s2 features s3 hF
  simp only [Recommend, hA, hT, hG]

/-! ## Lemmas on the traced world -/

theorem traced_loop_log {σ : Type} (w : World σ) (FromYear : Int) (fullTracks : List FullTrack)
    (trackCount : Int) (tracks : List FullTrack) (s : σ) (log : List Call) :
    ∃ rest, (getRecommendedTracksLoop (traced w) FromYear fullTracks trackCount tracks
        (s, log)).2.2 = log ++ rest ∧ ∀ c ∈ rest, c.isGetRecommendations = false := by
  induction fullTracks generalizing trackCount tracks s log with
  | nil => exact ⟨[], by simp [getRecommendedTracksLoop], by simp⟩
  | cons t rest ih =>
    rcases hc : w.fullalbumGet t.Album.ID s with ⟨r, s1⟩
    cases r with
    | error e =>
      refine ⟨[Call.fullalbumGet t.Album.ID], ?_, ?_⟩
      · simp [getRecommendedTracksLoop, traced, hc]
      · simp [Call.isGetRecommendations]
    | ok a =>
      have step : ∀ c acc, ∃ rest2,
          (getRecommendedTracksLoop (traced w) FromYear rest c acc
            (s1, log ++ [Call.fullalbumGet t.Album.ID])).2.2
            = log ++ rest2 ∧ ∀ c ∈ rest2, c.isGetRecommendations = false := by
        intro c acc
        obtain ⟨r2, h1, h2⟩ := ih c acc s1 (log ++ [Call.fullalbumGet t.Album.ID])
        refine ⟨Call.fullalbumGet t.Album.ID :: r2, by simp [h1], ?_⟩
        intro c hc2
        rcases List.mem_cons.1 hc2 with rfl | hc2
        · rfl
        · exact h2 c hc2
      simp only [getRecommendedTracksLoop, traced, hc]
      split_ifs
      · exact step _ _
      · exact step _ _

theorem traced_loop {σ : Type} (w : World σ) (FromYear : Int) (fullTracks : List FullTrack)
    (trackCount : Int) (tracks : List FullTrack) (s : σ) (log : List Call) :
    (getRecommendedTracksLoop (traced w) FromYear fullTracks trackCount tracks (s, log)).1
      = (getRecommendedTracksLoop w FromYear fullTracks trackCount tracks s).1 ∧
    (getRecommendedTracksLoop (traced w) FromYear fullTracks trackCount tracks (s, log)).2.1
      = (getRecommendedTracksLoop w FromYear fullTracks trackCount tracks s).2 := by
  induction fullTracks generalizing trackCount tracks s log with
  | nil => simp [getRecommendedTracksLoop]
  | cons t rest ih =>
    rcases hc : w.fullalbumGet t.Album.ID s with ⟨r, s1⟩
    cases r with
    | error e => simp [getRecommendedTracksLoop, traced, hc]
    | ok a =>
      simp only [getRecommendedTracksLoop, traced, hc]
      split_ifs
      · exact ih _ _ s1 _
      · exact ih _ _ s1 _

/-- The traced world answers as the world it wraps: `getRecommendedTracks` returns the same
result and leaves the same state. -/
theorem traced_getRecommendedTracks {σ : Type} (w : World σ) (params : RecommendationParameters)
    (s : σ) (log : List Call) :
    (getRecommendedTracks (traced w) params (s, log)).1 = (getRecommendedTracks w params s).1 ∧
    (getRecommendedTracks (traced w) params (s, log)).2.1
      = (getRecommendedTracks w params s).2 := by
  rcases hr : w.GetRecommendations params.Seeds params.TrackAttributes
    ⟨some 100, some 0, some w.Country⟩ s with ⟨r, s1⟩
  cases r with
  | error e => simp [getRecommendedTracks, traced, hr]
  | ok page =>
    rcases hm : w.fulltrackGetMany (w.GetSpotifyIDsSimple page.Tracks) s1 with ⟨r2, s2⟩
    cases r2 with
    | error e => simp [getRecommendedTracks, traced, hr, hm]
    | ok fullTracks =>
      simp only [getRecommendedTracks, traced, hr, hm]
      exact traced_loop w _ fullTracks 0 [] s2 _

/-! ## Claims on `getRecommendedTracks` and `Recommend` -/

/-- C9: `MinTrackCount` has no effect on `getRecommendedTracks`. For two parameter records
that agree on the seeds, the attribute target and `FromYear`, the result (tracks and error)
and the state left behind are the same in every world; in the traced world the logs of calls
are the same, and the log holds one recommendations request, the first call, with limit 100,
offset 0 and the configured market. -/
theorem getRecommendedTracks_MinTrackCount {σ : Type} (w : World σ)
    (p q : RecommendationParameters) (s : σ)
    (hSeeds : p.Seeds = q.Seeds) (hAttributes : p.TrackAttributes = q.TrackAttributes)
    (hYear : p.FromYear = q.FromYear) :
    getRecommendedTracks w p s = getRecommendedTracks w q s ∧
    (getRecommendedTracks (traced w) p (s, [])).2.2
      = (getRecommendedTracks (traced w) q (s, [])).2.2 ∧
    (∃ rest, (getRecommendedTracks (traced w) p (s, [])).2.2
        = Call.GetRecommendations p.Seeds p.TrackAttributes ⟨some 100, some 0, some w.Country⟩
            :: rest ∧
      ∀ c ∈ rest, c.isGetRecommendations = false) := by
  have same : ∀ {τ : Type} (v : World τ) (t : τ),
      getRecommendedTracks v p t = getRecommendedTracks v q t := by
    intro τ v t
    simp only [getRecommendedTracks, hSeeds, hAttributes, hYear]
  refine ⟨same w s, by rw [same (traced w) (s, [])], ?_⟩
  rcases hr : w.GetRecommendations p.Seeds p.TrackAttributes
    ⟨some 100, some 0, some w.Country⟩ s with ⟨r, s1⟩
  cases r with
  | error e => exact ⟨[], by simp [getRecommendedTracks, traced, hr], by simp⟩
  | ok page =>
    rcases hm : w.fulltrackGetMany (w.GetSpotifyIDsSimple page.Tracks) s1 with ⟨r2, s2⟩
    cases r2 with
    | error e =>
      refine ⟨[Call.fulltrackGetMany (w.GetSpotifyIDsSimple page.Tracks)], ?_, ?_⟩
      · simp [getRecommendedTracks, traced, hr, hm]
      · simp [Call.isGetRecommendations]
    | ok fullTracks =>
      obtain ⟨rest, h1, h2⟩ := traced_loop_log w p.FromYear fullTracks 0 [] s2
        [Call.GetRecommendations p.Seeds p.TrackAttributes ⟨some 100, some 0, some w.Country⟩,
          Call.fulltrackGetMany (w.GetSpotifyIDsSimple page.Tracks)]
      refine ⟨Call.fulltrackGetMany (w.GetSpotifyIDsSimple page.Tracks) :: rest, ?_, ?_⟩
      · simp only [getRecommendedTracks, traced, hr, hm, List.nil_append, List.cons_append,
          List.singleton_append] at h1 ⊢
        rw [h1]
      · intro c hc
        rcases List.mem_cons.1 hc with rfl | hc
        · rfl
        · exact h2 c hc

/-- C2: when every request succeeds (top artists, top tracks, audio features and, for each
artist in turn, the recommendations request, the bulk resolution and every album lookup),
`Recommend` returns no error and its output is the concatenation, over the top artists in
the order of the client, of the outputs of `getRecommendedTracks` on the parameters of that
artist (seed: the artist alone; attribute target: the one computed from the top tracks;
`FromYear` 2016; `MinTrackCount` 100), the fetches made one after the other. With three
artists and four retained tracks for each, the output has twelve tracks. -/
theorem Recommend_all_ok {σ : Type} (w : World σ) (s0 : σ) (topArtists : FullArtistPage)
    (s1 : σ) (topTracks : FullTrackPage) (s2 : σ) (features : List AudioFeatures) (s3 : σ)
    (hA : w.CurrentUsersTopArtistsOpt ⟨some 5, none, none⟩ s0 = (.ok topArtists, s1))
    (hT : w.CurrentUsersTopTracks s1 = (.ok topTracks, s2))
    (hF : w.GetAudioFeatures (w.GetSpotifyIDsFull topTracks.Tracks) s2 = (.ok features, s3))
    (hAll : ∀ ok ∈ (runEach (artistRequests w (getTrackAttributes w topTracks.Tracks s2).1.1)
      topArtists.Artists s3).1, ok = true) :
    Recommend w s0
      = ((((runEach (artistFetch w (getTrackAttributes w topTracks.Tracks s2).1.1)
            topArtists.Artists s3).1.map Prod.fst).flatten, none),
         (runEach (artistFetch w (getTrackAttributes w topTracks.Tracks s2).1.1)
            topArtists.Artists s3).2) ∧
    (∀ (artist : FullArtist) (s : σ),
      artistFetch w (getTrackAttributes w topTracks.Tracks s2).1.1 artist s
        = getRecommendedTracks w
            { Seeds := ⟨[artist.ID], [], []⟩
              TrackAttributes := (getTrackAttributes w topTracks.Tracks s2).1.1
              FromYear := 2016
              MinTrackCount := 100 } s) ∧
    (topArtists.Artists.length = 3 →
      (∀ r ∈ (runEach (artistFetch w (getTrackAttributes w topTracks.Tracks s2).1.1)
        topArtists.Artists s3).1, r.1.length = 4) →
      (Recommend w s0).1.1.length = 12) := by
  have hNone : ∀ r ∈ (runEach (artistFetch w (getTrackAttributes w topTracks.Tracks s2).1.1)
      topArtists.Artists s3).1, r.2 = none :=
    (runEach_all_of (artistRequests w (getTrackAttributes w topTracks.Tracks s2).1.1)
      (artistFetch w (getTrackAttributes w topTracks.Tracks s2).1.1)
      (fun ok => ok = true) (fun r => r.2 = none) (fun _ _ => rfl)
      (fun a s h => fetchSucceeds_no_error w _ s h) topArtists.Artists s3 hAll).1
  have hR : Recommend w s0
      = ((((runEach (artistFetch w (getTrackAttributes w topTracks.Tracks s2).1.1)
            topArtists.Artists s3).1.map Prod.fst).flatten, none),
         (runEach (artistFetch w (getTrackAttributes w topTracks.Tracks s2).1.1)
            topArtists.Artists s3).2) := by
    rw [Recommend_loop w s0 topArtists s1 topTracks s2 features s3 hA hT hF,
      RecommendLoop_ok w _ _ [] s3 hNone]
    simp
  refine ⟨hR, fun _ _ => rfl, ?_⟩
  intro h3 h4
  rw [hR]
  have hlen := runEach_length (artistFetch w (getTrackAttributes w topTracks.Tracks s2).1.1)
    topArtists.Artists s3
  rw [h3] at hlen
  generalize (runEach (artistFetch w (getTrackAttributes w topTracks.Tracks s2).1.1)
    topArtists.Artists s3).1 = rs at hlen h4
  match rs, hlen, h4 with
  | [r1, r2, r3], _, h4 =>
    have e1 := h4 r1 (by simp)
    have e2 := h4 r2 (by simp)
    have e3 := h4 r3 (by simp)
    simp [e1, e2, e3]

/-- An instance of C2: in the sample world, three artists with ten recommended tracks each, of
which four have an album of 2016 or later, give twelve tracks in artist-then-page order. -/
theorem Recommend_all_ok_witness :
    (Recommend (sampleWorld []) 0).1
      = (sampleKept "a1" ++ sampleKept "a2" ++ sampleKept "a3", none) ∧
    (Recommend (sampleWorld []) 0).1.1.length = 12 :=
  ⟨(congrArg Prod.fst
      (Recommend_all_ok (sampleWorld []) 0 _ 1 _ 2 _ 3 rfl rfl rfl (by decide)).1).trans
      (by decide),
    (Recommend_all_ok (sampleWorld []) 0 _ 1 _ 2 _ 3 rfl rfl rfl (by decide)).2.2 rfl
      (by decide)⟩

/-- C1, as stated, fails: in the sample world where the first album lookup of the second
artist fails, `Recommend` returns an error and, next to it, the four tracks retained for the
first artist. -/
theorem Recommend_error_keeps_tracks :
    (Recommend (sampleWorld ["al-a2-0"]) 0).1.2 = some "album lookup failed" ∧
    (Recommend (sampleWorld ["al-a2-0"]) 0).1.1
      = [sampleTrack "a1-0", sampleTrack "a1-1", sampleTrack "a1-2", sampleTrack "a1-3"] ∧
    (Recommend (sampleWorld ["al-a2-0"]) 0).1.1 ≠ [] := by
  decide

/-- C1, amended: when `Recommend` returns an error, the tracks returned next to it are those
of the artists fetched before the failure, and none of the failing artist. They are empty when
the top-artists, the top-tracks or the audio-features request fails; when the fetch of an
artist fails after the fetches of the artists before it succeeded, they are the concatenation
of the outputs of those fetches, and the error is that of the failing fetch. -/
theorem Recommend_error_tracks {σ : Type} (w : World σ) (s0 : σ)
    (h : (Recommend w s0).1.2 ≠ none) :
    (∃ e s1, w.CurrentUsersTopArtistsOpt ⟨some 5, none, none⟩ s0 = (.error e, s1) ∧
      (Recommend w s0).1 = ([], some (Errorf "Failed to get user's top artists: " e))) ∨
    (∃ topArtists s1 e s2,
      w.CurrentUsersTopArtistsOpt ⟨some 5, none, none⟩ s0 = (.ok topArtists, s1) ∧
      w.CurrentUsersTopTracks s1 = (.error e, s2) ∧
      (Recommend w s0).1 = ([], some (Errorf "Failed to get user's top tracks: " e))) ∨
    (∃ topArtists s1 topTracks s2 e s3,
      w.CurrentUsersTopArtistsOpt ⟨some 5, none, none⟩ s0 = (.ok topArtists, s1) ∧
      w.CurrentUsersTopTracks s1 = (.ok topTracks, s2) ∧
      w.GetAudioFeatures (w.GetSpotifyIDsFull topTracks.Tracks) s2 = (.error e, s3) ∧
      (Recommend w s0).1
        = ([], some (Errorf ("Failed to get audio features of "
            ++ toString topTracks.Tracks.length ++ " track(s): ") e))) ∨
    (∃ topArtists s1 topTracks s2 features s3 pre artist post e,
      w.CurrentUsersTopArtistsOpt ⟨some 5, none, none⟩ s0 = (.ok topArtists, s1) ∧
      w.CurrentUsersTopTracks s1 = (.ok topTracks, s2) ∧
      w.GetAudioFeatures (w.GetSpotifyIDsFull topTracks.Tracks) s2 = (.ok features, s3) ∧
      topArtists.Artists = pre ++ artist :: post ∧
      (∀ r ∈ (runEach (artistFetch w (getTrackAttributes w topTracks.Tracks s2).1.1) pre s3).1,
        r.2 = none) ∧
      (artistFetch w (getTrackAttributes w topTracks.Tracks s2).1.1 artist
        (runEach (artistFetch w (getTrackAttributes w topTracks.Tracks s2).1.1) pre s3).2).1.2
        = some e ∧
      (Recommend w s0).1
        = (((runEach (artistFetch w (getTrackAttributes w topTracks.Tracks s2).1.1)
              pre s3).1.map Prod.fst).flatten, some e)) := by
  rcases hA : w.CurrentUsersTopArtistsOpt ⟨some 5, none, none⟩ s0 with ⟨rA, s1⟩
  cases rA with
  | error e => exact Or.inl ⟨e, s1, rfl, by simp only [Recommend, hA]⟩
  | ok topArtists =>
    rcases hT : w.CurrentUsersTopTracks s1 with ⟨rT, s2⟩
    cases rT with
    | error e =>
      exact Or.inr (Or.inl ⟨topArtists, s1, e, s2, rfl, hT, by simp only [Recommend, hA, hT]⟩)
    | ok topTracks =>
      rcases hF : w.GetAudioFeatures (w.GetSpotifyIDsFull topTracks.Tracks) s2 with ⟨rF, s3⟩
      cases rF with
      | error e =>
        refine Or.inr (Or.inr (Or.inl ⟨topArtists, s1, topTracks, s2, e, s3, rfl, hT, hF, ?_⟩))
        simp only [Recommend, hA, hT, getTrackAttributes_error w _ s2 e s3 hF]
      | ok features =>
        have hR := Recommend_loop w s0 topArtists s1 topTracks s2 features s3 hA hT hF
        rcases runEach_first_bad (artistFetch w (getTrackAttributes w topTracks.Tracks s2).1.1)
          (fun r => r.2 = none) topArtists.Artists s3 with hall | ⟨pre, a, post, hl, hpre, hbad⟩
        · exfalso
          apply h
          rw [hR, RecommendLoop_ok w _ _ [] s3 hall]
        · obtain ⟨e, he⟩ := Option.ne_none_iff_exists'.1 hbad
          refine Or.inr (Or.inr (Or.inr
            ⟨topArtists, s1, topTracks, s2, features, s3, pre, a, post, e, rfl, hT, hF, hl,
              hpre, he, ?_⟩))
          rw [hR, hl, RecommendLoop_error w _ pre a post [] s3 e hpre he]
          simp

/-- An instance of amended C1, in the sample world where the first album lookup of the second
artist fails. -/
theorem Recommend_error_tracks_witness :
    (Recommend (sampleWorld ["al-a2-0"]) 0).1.2 ≠ none ∧
    ((Recommend (sampleWorld ["al-a2-0"]) 0).1.1 = [] ∨
      (Recommend (sampleWorld ["al-a2-0"]) 0).1.1 = sampleKept "a1") := by
  refine ⟨by decide, ?_⟩
  rcases Recommend_error_tracks (sampleWorld ["al-a2-0"]) 0 (by decide) with
    ⟨_, _, _, h⟩ | ⟨_, _, _, _, _, _, h⟩ | ⟨_, _, _, _, _, _, _, _, _, h⟩ |
    ⟨_, _, _, _, _, _, _, _, _, _, _, _, _, _, _, _, _⟩
  · exact Or.inl (congrArg Prod.fst h)
  · exact Or.inl (congrArg Prod.fst h)
  · exact Or.inl (congrArg Prod.fst h)
  · exact Or.inr (by decide)

/-! ## Instances of the claims in the sample world -/

/-- An instance of C3: the fetch for the first artist of the sample world keeps the four
tracks whose album is of 2016 or later, the first of them of 2016 itself. -/
theorem getRecommendedTracks_retained_witness :
    getRecommendedTracks (sampleWorld []) sampleParams 0
      = ((retained 2016 (sampleTracks "a1") (sampleAlbums "a1"), none), 12) ∧
    retained 2016 (sampleTracks "a1") (sampleAlbums "a1") = sampleKept "a1" :=
  ⟨(getRecommendedTracks_retained (sampleWorld []) sampleParams 0 _ 1 (sampleTracks "a1") 2
      (sampleAlbums "a1") rfl rfl rfl).1, by decide⟩

/-- An instance of C4: in the sample world where the album lookup of the eighth track fails,
an album that the year bound would have discarded, the fetch returns the error of that
lookup. -/
theorem getRecommendedTracks_error_witness :
    (getRecommendedTracks (sampleWorld ["al-a1-7"]) sampleParams 0).1.2
      = firstError (runEach (albumLookup (sampleWorld ["al-a1-7"])) (sampleTracks "a1") 2).1 ∧
    firstError (runEach (albumLookup (sampleWorld ["al-a1-7"])) (sampleTracks "a1") 2).1
      = some "album lookup failed" ∧
    sampleYear "al-a1-7" < 2016 :=
  ⟨(getRecommendedTracks_error (sampleWorld ["al-a1-7"]) sampleParams 0).2.2.2.1 _ _ rfl rfl,
    by decide, by decide⟩

/-- An instance of C5 at the kind `max` and the average `0.2`. -/
theorem asAttribute_range_witness :
    (0.3 : ℚ) ≤ asAttribute id "max" 0.2 ∧ asAttribute id "max" 0.2 ≤ 1.0 :=
  (asAttribute_range id "max" 0.2).1 rfl

/-- An instance of C7: the attribute target of the sample world is well formed. -/
theorem getTrackAttributes_bounded_witness :
    ∃ attributes,
      getTrackAttributes (sampleWorld []) [⟨"u1", ⟨"ua1"⟩⟩, ⟨"u2", ⟨"ua2"⟩⟩] 0
        = ((some attributes, none), 1) ∧ attributes.Bounded :=
  (getTrackAttributes_bounded (sampleWorld []) [⟨"u1", ⟨"ua1"⟩⟩, ⟨"u2", ⟨"ua2"⟩⟩] 0 _ 1 rfl).1

/-- An instance of C8: with no top track the sample world returns no sample, and the bounds
are `0.3` and `0.0`. -/
theorem getTrackAttributes_wiring_witness :
    ∃ attributes,
      getTrackAttributes (sampleWorld []) [] 0 = ((some attributes, none), 1) ∧
      attributes = ⟨some 0.3, some 0.0, some 0.3, some 0.0, some 0.3, some 0.0,
        some 0.3, some 0.0, some 0.3, some 0.0⟩ :=
  match getTrackAttributes_wiring (sampleWorld []) [] 0 [] 1 rfl rfl with
  | ⟨attributes, h1, _, _, _, h4⟩ => ⟨attributes, h1, h4 rfl⟩

/-- An instance of C9: a minimum track count of 1 and one of 100 give the same fetch. -/
theorem getRecommendedTracks_MinTrackCount_witness :
    getRecommendedTracks (sampleWorld []) { sampleParams with MinTrackCount := 1 } 0
      = getRecommendedTracks (sampleWorld []) sampleParams 0 :=
  (getRecommendedTracks_MinTrackCount (sampleWorld []) { sampleParams with MinTrackCount := 1 }
    sampleParams 0 rfl rfl rfl).1

end spotifyrecommendation
